import Mathlib

/-!
Verification of `src/make-ros2-branches-consistent.ts`.

The script reconciles the default branch of a fleet of repositories.
Remote and filesystem effects (the GitHub API wrappers from `./github`,
the git/cache helpers from `./cache`, `existsSync`, and
`createCommitAndPushFile` from `./file-system`) are modelled by an
environment `Env` of oracles returning `Except String` results — a JS
promise rejection is an `Except.error` carrying the thrown message.
Observable behaviour (console output, the shared `errors` array, and the
sequence of remote calls issued) is threaded through a `Trace` record,
so exceptions escaping a step keep the side effects already performed.
-/

/-- A repository record from the `ros2.repos` manifest: `{org, name, url,
version}`. `version` is mutated to the new branch during reconciliation. -/
structure Repo where
  org : String
  name : String
  url : String
  version : String
deriving Repr, DecidableEq

/-- The distribution manifest, reduced to what the engine touches: the
per-repository-name pinned version mapping. -/
abbrev Distribution := List (String × String)

/-- One remote (or remote-and-local, for `pullGitRepo`) call issued by the
engine, recorded in program order. -/
inductive RemoteCall where
  | getDefaultBranch (org name : String)
  | pullGitRepo (url destinationPath version : String)
  | commitAndPushFile (repoPath filePath fileContent commitMessage : String)
  | createNewBranch (org name baseBranch newBranchName : String)
  | setDefaultBranch (org name branch : String)
  | retargetPrs (org name fromBranch toBranch : String)
deriving Repr, DecidableEq

/-- Whether a recorded call mutates the remote system. `getDefaultBranch`
is a query and `pullGitRepo` only updates the local cache clone. -/
def RemoteCall.isMutation : RemoteCall → Bool
  | .getDefaultBranch _ _ => false
  | .pullGitRepo _ _ _ => false
  | .commitAndPushFile _ _ _ _ => true
  | .createNewBranch _ _ _ _ => true
  | .setDefaultBranch _ _ _ => true
  | .retargetPrs _ _ _ _ => true

/-- Oracle results for every external call the loop can make.
`fileExists` models `existsSync`; the rest return `Except.error msg` to
model a rejected promise whose `Error` carries `msg`. -/
structure Env where
  getDefaultBranch : String → String → Except String String
  pullGitRepo : String → String → String → Except String String
  fileExists : String → Bool
  commitAndPushFile : String → String → String → String → Except String String
  createNewBranch : String → String → String → String → Except String Unit
  setDefaultBranch : String → String → String → Except String Unit
  retargetPrs : String → String → String → String → Except String Unit

/-- The arguments of `makeRos2BranchesConsistent` that the loop reads. -/
structure Config where
  newBranch : String
  reposBranch : String
  cacheDir : String
  reposToExclude : List String
  isDryRun : Bool

/-- Observable state: console lines, the shared `errors` array, and the
external calls issued, each in program order. -/
structure Trace where
  logs : List String
  errors : List String
  calls : List RemoteCall
deriving Repr, DecidableEq

/-- `console.log(m)`. -/
def Trace.log (tr : Trace) (m : String) : Trace :=
  { tr with logs := tr.logs ++ [m] }

/-- Record an external call being issued. -/
def Trace.call (tr : Trace) (c : RemoteCall) : Trace :=
  { tr with calls := tr.calls ++ [c] }

/-- `errors.push(m)`. -/
def Trace.pushError (tr : Trace) (m : String) : Trace :=
  { tr with errors := tr.errors ++ [m] }

/-- `path.join` for two segments. -/
def joinPath (a b : String) : String := a ++ "/" ++ b

/-- `logSubItem(message)`: logs `" - " ++ message`. -/
def logSubItem (tr : Trace) (message : String) : Trace :=
  tr.log (" - " ++ message)

/-- `logSubItemError(message)`: logs `" - ERROR: " ++ message`. -/
def logSubItemError (tr : Trace) (message : String) : Trace :=
  logSubItem tr ("ERROR: " ++ message)

/-- The deterministic workflow file path,
`repoPath/.github/workflows/mirror-<newBranch>-to-<oldBranch>.yaml`. -/
def migrationWorkflowFilePath (repoPath oldBranch newBranch : String) : String :=
  joinPath (joinPath (joinPath repoPath ".github") "workflows")
    ("mirror-" ++ newBranch ++ "-to-" ++ oldBranch ++ ".yaml")

/-- The rendered (dedented by `endent`) mirror-workflow YAML body. -/
def migrationWorkflowFileContent (oldBranch newBranch : String) : String :=
  "name: Mirror " ++ newBranch ++ " to " ++ oldBranch ++ "\n\n" ++
  "on:\n  push:\n    branches: [ " ++ newBranch ++ " ]\n\n" ++
  "jobs:\n  mirror-to-" ++ oldBranch ++ ":\n    runs-on: ubuntu-latest\n" ++
  "    steps:\n    - uses: zofrex/mirror-branch@v1\n      with:\n" ++
  "        target-branch: " ++ oldBranch

/-- The deterministic commit message `Mirror <newBranch> to <oldBranch>`. -/
def mirrorCommitMessage (oldBranch newBranch : String) : String :=
  "Mirror " ++ newBranch ++ " to " ++ oldBranch

/-- Modelled from the spec: `createCommitAndPushFile` (module
`./file-system`, not under `src/`) commits and pushes a single file and
returns a status message, and honors dry-run by only describing the
action — no remote side effect is produced when `isDryRun` is true. -/
def createCommitAndPushFile (env : Env)
    (repoPath filePath fileContent commitMessage : String)
    (isDryRun : Bool) (tr : Trace) : Trace × Except String String :=
  if isDryRun then
    (tr, .ok ("Would commit and push " ++ filePath ++ " with message: " ++
      commitMessage))
  else
    let tr := tr.call (.commitAndPushFile repoPath filePath fileContent commitMessage)
    (tr, env.commitAndPushFile repoPath filePath fileContent commitMessage)

/-- Modelled from the spec: `setDistributionVersion` (module
`./distribution-file`, not under `src/`) sets the pinned version for a
repository name and throws when the name is absent from the
distribution manifest. -/
def setDistributionVersion (d : Distribution) (name version : String) :
    Except String Distribution :=
  if (List.any d fun p => p.1 == name) then
    .ok (List.map (fun p => if p.1 == name then (p.1, version) else p) d)
  else
    .error ("No repository named " ++ name ++ " in the distribution")

/-- `pushMirrorWorkflow({oldBranch, newBranch, repoPath, isDryRun})`:
when the workflow file already exists, log and do nothing; otherwise
commit and push the rendered workflow file, logging the returned status
message. A failure of the commit-and-push escapes as the error. -/
def pushMirrorWorkflow (env : Env) (oldBranch newBranch repoPath : String)
    (isDryRun : Bool) (tr : Trace) : Trace × Except String Unit :=
  let path := migrationWorkflowFilePath repoPath oldBranch newBranch
  if env.fileExists path then
    (logSubItem tr ("Doing nothing - Workflow file already exists: " ++ path),
      .ok ())
  else
    match createCommitAndPushFile env repoPath path
        (migrationWorkflowFileContent oldBranch newBranch)
        (mirrorCommitMessage oldBranch newBranch) isDryRun tr with
    | (tr, .ok message) => (logSubItem tr message, .ok ())
    | (tr, .error e) => (tr, .error e)

/-- `changeDefaultBranchAndRetargetPrs({oldBranch, newBranch, repoOrg,
repoName, isDryRun})`: when not dry-run, sequentially create the new
branch, set it as default and retarget PRs, logging a summary; any
failure escapes at once. When dry-run, only log a description. -/
def changeDefaultBranchAndRetargetPrs (env : Env)
    (oldBranch newBranch repoOrg repoName : String) (isDryRun : Bool)
    (tr : Trace) : Trace × Except String Unit :=
  if !isDryRun then
    let tr := tr.call (.createNewBranch repoOrg repoName oldBranch newBranch)
    match env.createNewBranch repoOrg repoName oldBranch newBranch with
    | .error e => (tr, .error e)
    | .ok _ =>
      let tr := tr.call (.setDefaultBranch repoOrg repoName newBranch)
      match env.setDefaultBranch repoOrg repoName newBranch with
      | .error e => (tr, .error e)
      | .ok _ =>
        let tr := tr.call (.retargetPrs repoOrg repoName oldBranch newBranch)
        match env.retargetPrs repoOrg repoName oldBranch newBranch with
        | .error e => (tr, .error e)
        | .ok _ =>
          (logSubItem tr ("Updated " ++ repoOrg ++ "/" ++ repoName ++
            " default branch from " ++ oldBranch ++ " to " ++ newBranch ++
            " and retargetted PRs"), .ok ())
  else
    (logSubItem tr ("Would create a new branch " ++ newBranch ++ " from " ++
      oldBranch ++ " and retarget PRs"), .ok ())

/-- The label prepended by both catch blocks in the loop body (lines
91–97 and 107–113 use the identical template). -/
def changeErrorMessage (org name e : String) : String :=
  "Error changing default branch and retargetting PRs on " ++ org ++ "/" ++
    name ++ ": " ++ e

/-- The try/catch wrapper the loop body puts around both steps: on an
escaped exception, log the labeled message and push it onto the shared
`errors` array; either way the loop body continues. -/
def catchLabeled (org name : String) (result : Trace × Except String Unit) :
    Trace :=
  match result with
  | (tr, .ok _) => tr
  | (tr, .error e) =>
    let message := changeErrorMessage org name e
    (logSubItemError tr message).pushError message

/-- The local working-copy path,
`join(cacheDir, reposBranch, repo.org, repo.name)`. -/
def repoPathOf (cfg : Config) (repo : Repo) : String :=
  joinPath (joinPath (joinPath cfg.cacheDir cfg.reposBranch) repo.org) repo.name

/-- One iteration of the `for (const repo of repos)` loop body.
`Except.error` in the result means an exception escaped the iteration
(only `getDefaultBranch` and `pullGitRepo` are outside try/catch). -/
def processRepo (env : Env) (cfg : Config) (repo : Repo) (dist : Distribution)
    (tr : Trace) : Trace × Except String (Repo × Distribution) :=
  if List.contains cfg.reposToExclude (repo.org ++ "/" ++ repo.name) then
    (tr.log ("Skipping " ++ repo.org ++ "/" ++ repo.name ++
      " since it is on the exclude list"), .ok (repo, dist))
  else
    let tr := tr.call (.getDefaultBranch repo.org repo.name)
    match env.getDefaultBranch repo.org repo.name with
    | .error e => (tr, .error e)
    | .ok oldBranch =>
      if oldBranch != cfg.newBranch then
        let tr := tr.log ("Processing " ++ repo.org ++ "/" ++ repo.name)
        let repoPath := repoPathOf cfg repo
        let tr := tr.call (.pullGitRepo repo.url repoPath repo.version)
        match env.pullGitRepo repo.url repoPath repo.version with
        | .error e => (tr, .error e)
        | .ok pullMessage =>
          let tr := logSubItem tr pullMessage
          let tr := catchLabeled repo.org repo.name
            (pushMirrorWorkflow env oldBranch cfg.newBranch repoPath
              cfg.isDryRun tr)
          let tr := catchLabeled repo.org repo.name
            (changeDefaultBranchAndRetargetPrs env oldBranch cfg.newBranch
              repo.org repo.name cfg.isDryRun tr)
          let repo := { repo with version := cfg.newBranch }
          match setDistributionVersion dist repo.name cfg.newBranch with
          | .ok dist => (tr, .ok (repo, dist))
          | .error _ =>
            (logSubItem tr ("Could not update distribution.yaml, since " ++
              repo.org ++ "/" ++ repo.name ++
              " is not in the distribution.yaml"), .ok (repo, dist))
      else
        (logSubItem tr ("Doing nothing - " ++ repo.org ++ "/" ++ repo.name ++
          " already has the default branch " ++ cfg.reposBranch),
          .ok (repo, dist))

/-- The whole `for` loop over the repository list. An escaped exception
aborts the remainder of the batch. Returns the mutated repository list
and distribution on success. -/
def runLoop (env : Env) (cfg : Config) :
    List Repo → Distribution → Trace →
    Trace × Except String (List Repo × Distribution)
  | [], dist, tr => (tr, .ok ([], dist))
  | repo :: rest, dist, tr =>
    match processRepo env cfg repo dist tr with
    | (tr, .error e) => (tr, .error e)
    | (tr, .ok (repo, dist)) =>
      match runLoop env cfg rest dist tr with
      | (tr, .error e) => (tr, .error e)
      | (tr, .ok (rest, dist)) => (tr, .ok (repo :: rest, dist))

/-- The observable outcome of a run: the final trace, the two output
manifests (`none` when the run aborted before writing them), and the
process exit status. -/
structure RunResult where
  trace : Trace
  outputRepos : Option (List Repo)
  outputDistribution : Option Distribution
  exitNonZero : Bool
deriving DecidableEq

/-- `makeRos2BranchesConsistent` from the loop onwards: run the loop on
the loaded manifests, write both output manifests, print the error
summary or the success message. The exit status is modelled from the
spec: the source only prints the summary, and the spec requires the
run's exit status to reflect the presence of recorded errors (a
pre-loop escape also exits non-zero, as an unhandled rejection). -/
def makeRos2BranchesConsistent (env : Env) (cfg : Config) (repos : List Repo)
    (dist : Distribution) : RunResult :=
  match runLoop env cfg repos dist ⟨[], [], []⟩ with
  | (tr, .error _) =>
    { trace := tr, outputRepos := none, outputDistribution := none,
      exitNonZero := true }
  | (tr, .ok (repos, dist)) =>
    let tr :=
      if tr.errors.isEmpty then tr.log "Done! - No errors"
      else List.foldl logSubItem (tr.log "Finished with errors:") tr.errors
    { trace := tr, outputRepos := some repos, outputDistribution := some dist,
      exitNonZero := !tr.errors.isEmpty }

/-- `true` iff the `Except` is `ok` — the computation did not throw. -/
def exceptOk {ε α : Type} : Except ε α → Bool
  | .ok _ => true
  | .error _ => false

/-! ### Projection lemmas for the trace operations -/

@[simp] theorem Trace.log_logs (tr : Trace) (m : String) :
    (tr.log m).logs = tr.logs ++ [m] := rfl

@[simp] theorem Trace.log_errors (tr : Trace) (m : String) :
    (tr.log m).errors = tr.errors := rfl

@[simp] theorem Trace.log_calls (tr : Trace) (m : String) :
    (tr.log m).calls = tr.calls := rfl

@[simp] theorem Trace.call_calls (tr : Trace) (c : RemoteCall) :
    (tr.call c).calls = tr.calls ++ [c] := rfl

@[simp] theorem Trace.call_errors (tr : Trace) (c : RemoteCall) :
    (tr.call c).errors = tr.errors := rfl

@[simp] theorem Trace.call_logs (tr : Trace) (c : RemoteCall) :
    (tr.call c).logs = tr.logs := rfl

@[simp] theorem Trace.pushError_errors (tr : Trace) (m : String) :
    (tr.pushError m).errors = tr.errors ++ [m] := rfl

@[simp] theorem Trace.pushError_logs (tr : Trace) (m : String) :
    (tr.pushError m).logs = tr.logs := rfl

@[simp] theorem Trace.pushError_calls (tr : Trace) (m : String) :
    (tr.pushError m).calls = tr.calls := rfl

@[simp] theorem logSubItem_logs (tr : Trace) (m : String) :
    (logSubItem tr m).logs = tr.logs ++ [" - " ++ m] := rfl

@[simp] theorem logSubItem_errors (tr : Trace) (m : String) :
    (logSubItem tr m).errors = tr.errors := rfl

@[simp] theorem logSubItem_calls (tr : Trace) (m : String) :
    (logSubItem tr m).calls = tr.calls := rfl

@[simp] theorem logSubItemError_logs (tr : Trace) (m : String) :
    (logSubItemError tr m).logs = tr.logs ++ [" - ERROR: " ++ m] := rfl

@[simp] theorem logSubItemError_errors (tr : Trace) (m : String) :
    (logSubItemError tr m).errors = tr.errors := rfl

@[simp] theorem logSubItemError_calls (tr : Trace) (m : String) :
    (logSubItemError tr m).calls = tr.calls := rfl

/-! ### Step-level lemmas -/

theorem createCommitAndPushFile_errors (env : Env)
    (repoPath filePath fileContent commitMessage : String) (isDryRun : Bool)
    (tr : Trace) :
    (createCommitAndPushFile env repoPath filePath fileContent commitMessage
      isDryRun tr).1.errors = tr.errors := by
  unfold createCommitAndPushFile
  split <;> simp

theorem pushMirrorWorkflow_errors (env : Env)
    (oldBranch newBranch repoPath : String) (isDryRun : Bool) (tr : Trace) :
    (pushMirrorWorkflow env oldBranch newBranch repoPath isDryRun tr).1.errors
      = tr.errors := by
  unfold pushMirrorWorkflow
  dsimp only
  split
  · simp
  · split
    case _ h =>
      have := createCommitAndPushFile_errors env repoPath
        (migrationWorkflowFilePath repoPath oldBranch newBranch)
        (migrationWorkflowFileContent oldBranch newBranch)
        (mirrorCommitMessage oldBranch newBranch) isDryRun tr
      rw [h] at this
      simpa using this
    case _ h =>
      have := createCommitAndPushFile_errors env repoPath
        (migrationWorkflowFilePath repoPath oldBranch newBranch)
        (migrationWorkflowFileContent oldBranch newBranch)
        (mirrorCommitMessage oldBranch newBranch) isDryRun tr
      rw [h] at this
      simpa using this

theorem changeDefaultBranchAndRetargetPrs_errors (env : Env)
    (oldBranch newBranch repoOrg repoName : String) (isDryRun : Bool)
    (tr : Trace) :
    (changeDefaultBranchAndRetargetPrs env oldBranch newBranch repoOrg
      repoName isDryRun tr).1.errors = tr.errors := by
  unfold changeDefaultBranchAndRetargetPrs
  split
  · split <;> [skip; split <;> [skip; split]] <;> simp
  · simp

@[simp] theorem catchLabeled_ok (org name : String) (tr : Trace) (u : Unit) :
    catchLabeled org name (tr, .ok u) = tr := rfl

@[simp] theorem catchLabeled_error (org name : String) (tr : Trace)
    (e : String) :
    catchLabeled org name (tr, .error e) =
      (logSubItemError tr (changeErrorMessage org name e)).pushError
        (changeErrorMessage org name e) := rfl

theorem catchLabeled_calls (org name : String)
    (res : Trace × Except String Unit) :
    (catchLabeled org name res).calls = res.1.calls := by
  rcases res with ⟨tr, r⟩
  cases r <;> simp

theorem catchLabeled_errors_sub (org name : String)
    (res : Trace × Except String Unit) (e : String)
    (he : e ∈ (catchLabeled org name res).errors) :
    e ∈ res.1.errors ∨ ∃ m, e = changeErrorMessage org name m := by
  rcases res with ⟨tr, r⟩
  cases r with
  | ok u => exact Or.inl (by simpa using he)
  | error f =>
    simp at he
    rcases he with he | he
    · exact Or.inl he
    · exact Or.inr ⟨f, he⟩

/-- In dry-run the mirror-workflow step always succeeds and only logs a
single sub-item line (either the already-exists message or the
would-commit description); no call is recorded. -/
theorem pushMirrorWorkflow_dry (env : Env) (oldBranch newBranch repoPath : String)
    (tr : Trace) :
    ∃ m, pushMirrorWorkflow env oldBranch newBranch repoPath true tr
      = (logSubItem tr m, .ok ()) := by
  unfold pushMirrorWorkflow createCommitAndPushFile
  dsimp only
  split
  · exact ⟨_, rfl⟩
  · exact ⟨_, rfl⟩

/-- In dry-run the default-branch-change step makes no call and logs the
single descriptive line. -/
theorem changeDefaultBranchAndRetargetPrs_dry (env : Env)
    (oldBranch newBranch repoOrg repoName : String) (tr : Trace) :
    changeDefaultBranchAndRetargetPrs env oldBranch newBranch repoOrg repoName
        true tr
      = (logSubItem tr ("Would create a new branch " ++ newBranch ++ " from " ++
          oldBranch ++ " and retarget PRs"), .ok ()) := rfl

theorem string_length_zero (a : String) (h : a.length = 0) : a = "" := by
  cases a with
  | mk data =>
    cases data with
    | nil => rfl
    | cons c cs => simp [String.length] at h

theorem append_ne_empty_of_left (a b : String) (h : a ≠ "") : a ++ b ≠ "" := by
  intro hc
  have hl := congrArg String.length hc
  simp [String.length_append] at hl
  exact h (string_length_zero a hl.1)

theorem foldl_logSubItem_errors (l : List String) (tr : Trace) :
    (List.foldl logSubItem tr l).errors = tr.errors := by
  induction l generalizing tr with
  | nil => rfl
  | cons x xs ih => simp [ih]

/-! ### Branch characterizations of one loop iteration -/

theorem processRepo_excluded (env : Env) (cfg : Config) (repo : Repo)
    (dist : Distribution) (tr : Trace)
    (hexc : (repo.org ++ "/" ++ repo.name) ∈ cfg.reposToExclude) :
    processRepo env cfg repo dist tr =
      (tr.log ("Skipping " ++ repo.org ++ "/" ++ repo.name ++
        " since it is on the exclude list"), .ok (repo, dist)) := by
  simp [processRepo, hexc]

theorem processRepo_query_error (env : Env) (cfg : Config) (repo : Repo)
    (dist : Distribution) (tr : Trace) (e : String)
    (hexc : (repo.org ++ "/" ++ repo.name) ∉ cfg.reposToExclude)
    (hq : env.getDefaultBranch repo.org repo.name = .error e) :
    processRepo env cfg repo dist tr =
      (tr.call (.getDefaultBranch repo.org repo.name), .error e) := by
  simp [processRepo, hexc, hq]

theorem processRepo_noop (env : Env) (cfg : Config) (repo : Repo)
    (dist : Distribution) (tr : Trace) (b : String)
    (hexc : (repo.org ++ "/" ++ repo.name) ∉ cfg.reposToExclude)
    (hq : env.getDefaultBranch repo.org repo.name = .ok b)
    (hb : b = cfg.newBranch) :
    processRepo env cfg repo dist tr =
      (logSubItem (tr.call (.getDefaultBranch repo.org repo.name))
        ("Doing nothing - " ++ repo.org ++ "/" ++ repo.name ++
          " already has the default branch " ++ cfg.reposBranch),
        .ok (repo, dist)) := by
  simp [processRepo, hexc, hq, hb]

theorem processRepo_pull_error (env : Env) (cfg : Config) (repo : Repo)
    (dist : Distribution) (tr : Trace) (b e : String)
    (hexc : (repo.org ++ "/" ++ repo.name) ∉ cfg.reposToExclude)
    (hq : env.getDefaultBranch repo.org repo.name = .ok b)
    (hb : b ≠ cfg.newBranch)
    (hp : env.pullGitRepo repo.url (repoPathOf cfg repo) repo.version
      = .error e) :
    processRepo env cfg repo dist tr =
      (((tr.call (.getDefaultBranch repo.org repo.name)).log
          ("Processing " ++ repo.org ++ "/" ++ repo.name)).call
        (.pullGitRepo repo.url (repoPathOf cfg repo) repo.version),
        .error e) := by
  simp [processRepo, hexc, hq, hb, hp]

theorem processRepo_main (env : Env) (cfg : Config) (repo : Repo)
    (dist : Distribution) (tr : Trace) (b pm : String)
    (hexc : (repo.org ++ "/" ++ repo.name) ∉ cfg.reposToExclude)
    (hq : env.getDefaultBranch repo.org repo.name = .ok b)
    (hb : b ≠ cfg.newBranch)
    (hp : env.pullGitRepo repo.url (repoPathOf cfg repo) repo.version
      = .ok pm) :
    processRepo env cfg repo dist tr =
      (let tr1 := logSubItem
        (((tr.call (.getDefaultBranch repo.org repo.name)).log
            ("Processing " ++ repo.org ++ "/" ++ repo.name)).call
          (.pullGitRepo repo.url (repoPathOf cfg repo) repo.version)) pm
       let tr2 := catchLabeled repo.org repo.name
         (pushMirrorWorkflow env b cfg.newBranch (repoPathOf cfg repo)
           cfg.isDryRun tr1)
       let tr3 := catchLabeled repo.org repo.name
         (changeDefaultBranchAndRetargetPrs env b cfg.newBranch repo.org
           repo.name cfg.isDryRun tr2)
       match setDistributionVersion dist repo.name cfg.newBranch with
       | .ok dist2 => (tr3, .ok ({repo with version := cfg.newBranch}, dist2))
       | .error _ =>
         (logSubItem tr3 ("Could not update distribution.yaml, since " ++
             repo.org ++ "/" ++ repo.name ++
             " is not in the distribution.yaml"),
           .ok ({repo with version := cfg.newBranch}, dist))) := by
  simp [processRepo, hexc, hq, hb, hp]

@[simp] theorem exceptOk_ok {ε α : Type} (a : α) :
    exceptOk (Except.ok a : Except ε α) = true := rfl

@[simp] theorem exceptOk_error {ε α : Type} (e : ε) :
    exceptOk (Except.error e : Except ε α) = false := rfl

/-- Any error present after the two catch-wrapped steps was either
already present or carries this repository's label. -/
theorem steps_errors_sub (env : Env) (cfg : Config)
    (org name b repoPath : String) (tr : Trace) (e : String)
    (he : e ∈ (catchLabeled org name
        (changeDefaultBranchAndRetargetPrs env b cfg.newBranch org name
          cfg.isDryRun (catchLabeled org name
            (pushMirrorWorkflow env b cfg.newBranch repoPath cfg.isDryRun
              tr)))).errors) :
    e ∈ tr.errors ∨ ∃ m, e = changeErrorMessage org name m := by
  rcases catchLabeled_errors_sub org name _ e he with h | h
  · rw [changeDefaultBranchAndRetargetPrs_errors] at h
    rcases catchLabeled_errors_sub org name _ e h with h2 | h2
    · rw [pushMirrorWorkflow_errors] at h2
      exact Or.inl h2
    · exact Or.inr h2
  · exact Or.inr h

/-- Any error appended by one loop iteration carries this repository's
label; errors already present are preserved. -/
theorem processRepo_errors_sub (env : Env) (cfg : Config) (repo : Repo)
    (dist : Distribution) (tr : Trace) (e : String)
    (he : e ∈ (processRepo env cfg repo dist tr).1.errors) :
    e ∈ tr.errors ∨ ∃ m, e = changeErrorMessage repo.org repo.name m := by
  by_cases hexc : (repo.org ++ "/" ++ repo.name) ∈ cfg.reposToExclude
  · rw [processRepo_excluded env cfg repo dist tr hexc] at he
    exact Or.inl (by simpa using he)
  · cases hq : env.getDefaultBranch repo.org repo.name with
    | error f =>
      rw [processRepo_query_error env cfg repo dist tr f hexc hq] at he
      exact Or.inl (by simpa using he)
    | ok b =>
      by_cases hb : b = cfg.newBranch
      · rw [processRepo_noop env cfg repo dist tr b hexc hq hb] at he
        exact Or.inl (by simpa using he)
      · cases hp : env.pullGitRepo repo.url (repoPathOf cfg repo)
            repo.version with
        | error f =>
          rw [processRepo_pull_error env cfg repo dist tr b f hexc hq hb hp]
            at he
          exact Or.inl (by simpa using he)
        | ok pm =>
          rw [processRepo_main env cfg repo dist tr b pm hexc hq hb hp] at he
          dsimp only at he
          split at he
          all_goals {
            simp only [logSubItem_errors] at he
            rcases steps_errors_sub env cfg repo.org repo.name b
              (repoPathOf cfg repo) _ e he with h | h
            · exact Or.inl (by simpa using h)
            · exact Or.inr h
          }

/-- When the default-branch query and the pull both succeed, a loop
iteration never lets an exception escape. -/
theorem processRepo_ok (env : Env) (cfg : Config) (repo : Repo)
    (dist : Distribution) (tr : Trace)
    (hq : exceptOk (env.getDefaultBranch repo.org repo.name) = true)
    (hp : ∀ p, exceptOk (env.pullGitRepo repo.url p repo.version) = true) :
    exceptOk (processRepo env cfg repo dist tr).2 = true := by
  by_cases hexc : (repo.org ++ "/" ++ repo.name) ∈ cfg.reposToExclude
  · rw [processRepo_excluded env cfg repo dist tr hexc]
    rfl
  · cases hqq : env.getDefaultBranch repo.org repo.name with
    | error f =>
      rw [hqq] at hq
      simp at hq
    | ok b =>
      by_cases hb : b = cfg.newBranch
      · rw [processRepo_noop env cfg repo dist tr b hexc hqq hb]
        rfl
      · cases hpp : env.pullGitRepo repo.url (repoPathOf cfg repo)
            repo.version with
        | error f =>
          have hpf := hp (repoPathOf cfg repo)
          rw [hpp] at hpf
          simp at hpf
        | ok pm =>
          rw [processRepo_main env cfg repo dist tr b pm hexc hqq hb hpp]
          dsimp only
          split <;> rfl

theorem runLoop_nil (env : Env) (cfg : Config) (dist : Distribution)
    (tr : Trace) :
    runLoop env cfg [] dist tr = (tr, .ok ([], dist)) := rfl

theorem runLoop_cons (env : Env) (cfg : Config) (repo : Repo)
    (rest : List Repo) (dist : Distribution) (tr : Trace) :
    runLoop env cfg (repo :: rest) dist tr =
      match processRepo env cfg repo dist tr with
      | (tr2, .error e) => (tr2, .error e)
      | (tr2, .ok (repo2, dist2)) =>
        match runLoop env cfg rest dist2 tr2 with
        | (tr3, .error e) => (tr3, .error e)
        | (tr3, .ok (rest2, dist3)) => (tr3, .ok (repo2 :: rest2, dist3)) :=
  rfl

/-- Every error accumulated across the loop either predates the loop or
carries the label of some repository in the batch. -/
theorem runLoop_errors_sub (env : Env) (cfg : Config) (repos : List Repo) :
    ∀ (dist : Distribution) (tr : Trace) (e : String),
      e ∈ (runLoop env cfg repos dist tr).1.errors →
      e ∈ tr.errors ∨ ∃ r ∈ repos, ∃ m, e = changeErrorMessage r.org r.name m
    := by
  induction repos with
  | nil =>
    intro dist tr e he
    exact Or.inl (by simpa [runLoop_nil] using he)
  | cons repo rest ih =>
    intro dist tr e he
    rw [runLoop_cons] at he
    rcases hpr : processRepo env cfg repo dist tr with ⟨tr2, r⟩
    rw [hpr] at he
    cases r with
    | error f =>
      rcases processRepo_errors_sub env cfg repo dist tr e
          (by rw [hpr]; exact he) with h | h
      · exact Or.inl h
      · exact Or.inr ⟨repo, List.mem_cons_self repo rest, h⟩
    | ok pd =>
      rcases pd with ⟨repo2, dist2⟩
      dsimp only at he
      rcases hrl : runLoop env cfg rest dist2 tr2 with ⟨tr3, r2⟩
      rw [hrl] at he
      have he3 : e ∈ tr3.errors := by cases r2 <;> simpa using he
      rcases ih dist2 tr2 e (by rw [hrl]; exact he3) with h | h
      · rcases processRepo_errors_sub env cfg repo dist tr e
            (by rw [hpr]; exact h) with h2 | h2
        · exact Or.inl h2
        · exact Or.inr ⟨repo, List.mem_cons_self repo rest, h2⟩
      · rcases h with ⟨r, hr, hm⟩
        exact Or.inr ⟨r, List.mem_cons_of_mem repo hr, hm⟩

/-- When every repository's query and pull succeed, the whole loop
completes without an escaped exception. -/
theorem runLoop_ok (env : Env) (cfg : Config) (repos : List Repo) :
    ∀ (dist : Distribution) (tr : Trace),
      (∀ r ∈ repos, exceptOk (env.getDefaultBranch r.org r.name) = true) →
      (∀ r ∈ repos, ∀ p, exceptOk (env.pullGitRepo r.url p r.version) = true) →
      exceptOk (runLoop env cfg repos dist tr).2 = true := by
  induction repos with
  | nil => intro dist tr _ _; rfl
  | cons repo rest ih =>
    intro dist tr hq hp
    rw [runLoop_cons]
    rcases hpr : processRepo env cfg repo dist tr with ⟨tr2, r⟩
    have hok := processRepo_ok env cfg repo dist tr
      (hq repo (List.mem_cons_self repo rest))
      (hp repo (List.mem_cons_self repo rest))
    rw [hpr] at hok
    cases r with
    | error f => simp at hok
    | ok pd =>
      rcases pd with ⟨repo2, dist2⟩
      dsimp only
      have h2 := ih dist2 tr2
        (fun r hr => hq r (List.mem_cons_of_mem repo hr))
        (fun r hr => hp r (List.mem_cons_of_mem repo hr))
      rcases hrl : runLoop env cfg rest dist2 tr2 with ⟨tr3, r2⟩
      rw [hrl] at h2
      cases r2 with
      | error f => simp at h2
      | ok x => rfl

/-! ### Concrete fixtures used by witnesses and counterexamples -/

/-- A gateway where every call succeeds and the current default branch
is `galactic`. -/
def envHappy : Env where
  getDefaultBranch := fun _ _ => .ok "galactic"
  pullGitRepo := fun _ _ _ => .ok "Pulled repository"
  fileExists := fun _ => false
  commitAndPushFile := fun _ _ _ _ => .ok "Committed and pushed"
  createNewBranch := fun _ _ _ _ => .ok ()
  setDefaultBranch := fun _ _ _ => .ok ()
  retargetPrs := fun _ _ _ _ => .ok ()

/-- Like `envHappy` but the default-branch query rejects. -/
def envQueryFail : Env :=
  { envHappy with getDefaultBranch := fun _ _ => .error "network down" }

/-- Like `envHappy` but the commit-and-push of the workflow file
rejects. -/
def envMirrorFail : Env :=
  { envHappy with commitAndPushFile := fun _ _ _ _ => .error "push rejected" }

/-- Like `envHappy` but the default branch is already `rolling`. -/
def envAlready : Env :=
  { envHappy with getDefaultBranch := fun _ _ => .ok "rolling" }

/-- The repository of the spec's concrete scenario. -/
def repoFoo : Repo := ⟨"ros2", "foo", "...", "rolling"⟩

/-- A distribution manifest containing `foo`. -/
def distFoo : Distribution := [("foo", "galactic")]

/-- Target branch `rolling`, real run, nothing excluded. -/
def cfgRolling : Config := ⟨"rolling", "rolling", ".cache", [], false⟩

/-- Like `cfgRolling` but dry-run. -/
def cfgDry : Config := { cfgRolling with isDryRun := true }

/-- Like `cfgRolling` but with `ros2/foo` excluded. -/
def cfgExclude : Config := { cfgRolling with reposToExclude := ["ros2/foo"] }

/-- The empty trace the run starts from. -/
def trEmpty : Trace := ⟨[], [], []⟩

/-! ### Claim theorems -/

/-- C5: for a repository whose `org/name` is in the exclusion set, the
iteration makes zero remote calls and returns the repository record and
the distribution manifest unchanged. -/
theorem excluded_repo_untouched (env : Env) (cfg : Config) (repo : Repo)
    (dist : Distribution) (tr : Trace)
    (hexc : (repo.org ++ "/" ++ repo.name) ∈ cfg.reposToExclude) :
    (processRepo env cfg repo dist tr).1.calls = tr.calls ∧
    (processRepo env cfg repo dist tr).2 = .ok (repo, dist) := by
  rw [processRepo_excluded env cfg repo dist tr hexc]
  exact ⟨rfl, rfl⟩

/-- Witness for C5 at the concrete excluded repository `ros2/foo`. -/
theorem excluded_repo_untouched_witness :
    (processRepo envHappy cfgExclude repoFoo distFoo trEmpty).1.calls
      = trEmpty.calls ∧
    (processRepo envHappy cfgExclude repoFoo distFoo trEmpty).2
      = .ok (repoFoo, distFoo) :=
  excluded_repo_untouched envHappy cfgExclude repoFoo distFoo trEmpty
    (by decide)

/-- C6: when the remote default branch already equals the target branch,
the iteration performs only the default-branch query (no mutation call),
logs the no-op line, and leaves the repository record — in particular
its version — and the distribution unchanged. -/
theorem already_target_noop (env : Env) (cfg : Config) (repo : Repo)
    (dist : Distribution) (tr : Trace)
    (hexc : (repo.org ++ "/" ++ repo.name) ∉ cfg.reposToExclude)
    (hq : env.getDefaultBranch repo.org repo.name = .ok cfg.newBranch) :
    (processRepo env cfg repo dist tr).1.calls
      = tr.calls ++ [.getDefaultBranch repo.org repo.name] ∧
    (∀ c ∈ (processRepo env cfg repo dist tr).1.calls,
      c ∈ tr.calls ∨ c.isMutation = false) ∧
    (processRepo env cfg repo dist tr).1.logs
      = tr.logs ++ [" - " ++ ("Doing nothing - " ++ repo.org ++ "/" ++
          repo.name ++ " already has the default branch " ++
          cfg.reposBranch)] ∧
    (processRepo env cfg repo dist tr).2 = .ok (repo, dist) := by
  rw [processRepo_noop env cfg repo dist tr cfg.newBranch hexc hq rfl]
  refine ⟨by simp, ?_, by simp, rfl⟩
  intro c hc
  simp at hc
  rcases hc with hc | hc
  · exact Or.inl hc
  · exact Or.inr (by rw [hc]; rfl)

/-- Witness for C6: the spec's concrete scenario — repository
`{org: ros2, name: foo, url: "...", version: rolling}`, current default
branch `rolling`, target `rolling` — is a no-op and the version stays
`rolling`. -/
theorem already_target_noop_witness :
    (processRepo envAlready cfgRolling repoFoo distFoo trEmpty).2
      = .ok (repoFoo, distFoo) ∧ repoFoo.version = "rolling" :=
  ⟨(already_target_noop envAlready cfgRolling repoFoo distFoo trEmpty
      (by decide) rfl).2.2.2, rfl⟩

/-- C7: the default-branch-change step — in dry-run a single descriptive
log line and zero remote calls; otherwise exactly the three calls
create-branch, set-default-branch, retarget-prs in that order when all
succeed, and a failure of any sub-step aborts the step at once (no
retry, no further sub-step) and escapes as the step's single failure. -/
theorem changeDefaultBranch_sequence_contract (env : Env)
    (oldBranch newBranch repoOrg repoName : String) (tr : Trace) :
    (changeDefaultBranchAndRetargetPrs env oldBranch newBranch repoOrg
        repoName true tr
      = (logSubItem tr ("Would create a new branch " ++ newBranch ++
          " from " ++ oldBranch ++ " and retarget PRs"), .ok ())) ∧
    (∀ u1 u2 u3,
      env.createNewBranch repoOrg repoName oldBranch newBranch = .ok u1 →
      env.setDefaultBranch repoOrg repoName newBranch = .ok u2 →
      env.retargetPrs repoOrg repoName oldBranch newBranch = .ok u3 →
      changeDefaultBranchAndRetargetPrs env oldBranch newBranch repoOrg
          repoName false tr
        = (logSubItem (((tr.call
            (.createNewBranch repoOrg repoName oldBranch newBranch)).call
            (.setDefaultBranch repoOrg repoName newBranch)).call
            (.retargetPrs repoOrg repoName oldBranch newBranch))
            ("Updated " ++ repoOrg ++ "/" ++ repoName ++
              " default branch from " ++ oldBranch ++ " to " ++ newBranch ++
              " and retargetted PRs"), .ok ())) ∧
    (∀ e,
      env.createNewBranch repoOrg repoName oldBranch newBranch = .error e →
      changeDefaultBranchAndRetargetPrs env oldBranch newBranch repoOrg
          repoName false tr
        = (tr.call (.createNewBranch repoOrg repoName oldBranch newBranch),
            .error e)) ∧
    (∀ u1 e,
      env.createNewBranch repoOrg repoName oldBranch newBranch = .ok u1 →
      env.setDefaultBranch repoOrg repoName newBranch = .error e →
      changeDefaultBranchAndRetargetPrs env oldBranch newBranch repoOrg
          repoName false tr
        = ((tr.call
            (.createNewBranch repoOrg repoName oldBranch newBranch)).call
            (.setDefaultBranch repoOrg repoName newBranch), .error e)) ∧
    (∀ u1 u2 e,
      env.createNewBranch repoOrg repoName oldBranch newBranch = .ok u1 →
      env.setDefaultBranch repoOrg repoName newBranch = .ok u2 →
      env.retargetPrs repoOrg repoName oldBranch newBranch = .error e →
      changeDefaultBranchAndRetargetPrs env oldBranch newBranch repoOrg
          repoName false tr
        = (((tr.call
            (.createNewBranch repoOrg repoName oldBranch newBranch)).call
            (.setDefaultBranch repoOrg repoName newBranch)).call
            (.retargetPrs repoOrg repoName oldBranch newBranch), .error e)) :=
  by
  refine ⟨changeDefaultBranchAndRetargetPrs_dry env oldBranch newBranch
    repoOrg repoName tr, ?_, ?_, ?_, ?_⟩
  · intro u1 u2 u3 h1 h2 h3
    simp [changeDefaultBranchAndRetargetPrs, h1, h2, h3]
  · intro e h1
    simp [changeDefaultBranchAndRetargetPrs, h1]
  · intro u1 e h1 h2
    simp [changeDefaultBranchAndRetargetPrs, h1, h2]
  · intro u1 u2 e h1 h2 h3
    simp [changeDefaultBranchAndRetargetPrs, h1, h2, h3]

/-- Witness for C7 at a concrete gateway where all three calls succeed:
the step records exactly the three calls in order. -/
theorem changeDefaultBranch_sequence_contract_witness :
    changeDefaultBranchAndRetargetPrs envHappy "galactic" "rolling" "ros2"
        "foo" false trEmpty
      = (logSubItem (((trEmpty.call
          (.createNewBranch "ros2" "foo" "galactic" "rolling")).call
          (.setDefaultBranch "ros2" "foo" "rolling")).call
          (.retargetPrs "ros2" "foo" "galactic" "rolling"))
          ("Updated " ++ "ros2" ++ "/" ++ "foo" ++
            " default branch from " ++ "galactic" ++ " to " ++ "rolling" ++
            " and retargetted PRs"), .ok ()) :=
  (changeDefaultBranch_sequence_contract envHappy "galactic" "rolling" "ros2"
    "foo" trEmpty).2.1 () () () rfl rfl rfl

/-- C4: the mirror-workflow step computes the deterministic path
`repoPath/.github/workflows/mirror-<new>-to-<old>.yaml`; when a file
already exists there it performs no mutation and logs the
already-exists line, and otherwise (real run) it records exactly one
commit-and-push of that path, whose content and commit message are the
deterministic functions of the two branch names. -/
theorem pushMirrorWorkflow_contract (env : Env)
    (oldBranch newBranch repoPath : String) (tr : Trace) :
    (env.fileExists (migrationWorkflowFilePath repoPath oldBranch newBranch)
        = true →
      pushMirrorWorkflow env oldBranch newBranch repoPath false tr
        = (logSubItem tr ("Doing nothing - Workflow file already exists: " ++
            migrationWorkflowFilePath repoPath oldBranch newBranch),
            .ok ())) ∧
    (env.fileExists (migrationWorkflowFilePath repoPath oldBranch newBranch)
        = false →
      (pushMirrorWorkflow env oldBranch newBranch repoPath false tr).1.calls
        = tr.calls ++ [.commitAndPushFile repoPath
            (migrationWorkflowFilePath repoPath oldBranch newBranch)
            (migrationWorkflowFileContent oldBranch newBranch)
            (mirrorCommitMessage oldBranch newBranch)]) := by
  constructor
  · intro h
    simp [pushMirrorWorkflow, h]
  · intro h
    rcases hr : env.commitAndPushFile repoPath
        (migrationWorkflowFilePath repoPath oldBranch newBranch)
        (migrationWorkflowFileContent oldBranch newBranch)
        (mirrorCommitMessage oldBranch newBranch) with e | m <;>
      simp [pushMirrorWorkflow, createCommitAndPushFile, h, hr]

/-- Witness for C4: with no pre-existing file, exactly one
commit-and-push call of the deterministic path, content and message is
recorded. -/
theorem pushMirrorWorkflow_contract_witness :
    (pushMirrorWorkflow envHappy "galactic" "rolling" "repo" false
        trEmpty).1.calls
      = trEmpty.calls ++ [.commitAndPushFile "repo"
          (migrationWorkflowFilePath "repo" "galactic" "rolling")
          (migrationWorkflowFileContent "galactic" "rolling")
          (mirrorCommitMessage "galactic" "rolling")] :=
  (pushMirrorWorkflow_contract envHappy "galactic" "rolling" "repo"
    trEmpty).2 rfl

/-- The mirror-workflow step only appends calls: membership in the
starting trace's call list is preserved. -/
theorem calls_mono_mirror (env : Env) (o n p : String) (d : Bool)
    (tr : Trace) (c : RemoteCall) (hc : c ∈ tr.calls) :
    c ∈ (pushMirrorWorkflow env o n p d tr).1.calls := by
  unfold pushMirrorWorkflow createCommitAndPushFile
  dsimp only
  split
  · simpa using hc
  · cases d
    · rcases h : env.commitAndPushFile p (migrationWorkflowFilePath p o n)
          (migrationWorkflowFileContent o n) (mirrorCommitMessage o n)
          with e | m <;>
        simp [h, hc]
    · simpa using hc

/-- The default-branch-change step only appends calls. -/
theorem calls_mono_change (env : Env) (o n org name : String) (d : Bool)
    (tr : Trace) (c : RemoteCall) (hc : c ∈ tr.calls) :
    c ∈ (changeDefaultBranchAndRetargetPrs env o n org name d tr).1.calls :=
  by
  cases d
  · rcases h1 : env.createNewBranch org name o n with e | u1
    · simp [changeDefaultBranchAndRetargetPrs, h1, hc]
    · rcases h2 : env.setDefaultBranch org name n with e | u2
      · simp [changeDefaultBranchAndRetargetPrs, h1, h2, hc]
      · rcases h3 : env.retargetPrs org name o n with e | u3 <;>
          simp [changeDefaultBranchAndRetargetPrs, h1, h2, h3, hc]
  · simpa [changeDefaultBranchAndRetargetPrs_dry] using hc

/-- Whatever the three remote outcomes, a real (non-dry) run of the
default-branch-change step always records the create-branch call. -/
theorem changeDefault_real_includes_create (env : Env) (o n org name : String)
    (tr : Trace) :
    (.createNewBranch org name o n : RemoteCall)
      ∈ (changeDefaultBranchAndRetargetPrs env o n org name false
          tr).1.calls := by
  rcases h1 : env.createNewBranch org name o n with e | u1
  · simp [changeDefaultBranchAndRetargetPrs, h1]
  · rcases h2 : env.setDefaultBranch org name n with e | u2
    · simp [changeDefaultBranchAndRetargetPrs, h1, h2]
    · rcases h3 : env.retargetPrs org name o n with e | u3 <;>
        simp [changeDefaultBranchAndRetargetPrs, h1, h2, h3]

/-- C3: for a repository whose mirror-workflow step throws (the
commit-and-push of the missing workflow file rejects), the
default-branch-change step is still attempted — its create-branch call
is recorded — and the returned repository record's version is set to the
target branch. -/
theorem mirror_failure_does_not_block_change_step (env : Env) (cfg : Config)
    (repo : Repo) (dist : Distribution) (tr : Trace) (b pm : String)
    (hexc : (repo.org ++ "/" ++ repo.name) ∉ cfg.reposToExclude)
    (hq : env.getDefaultBranch repo.org repo.name = .ok b)
    (hb : b ≠ cfg.newBranch)
    (hp : env.pullGitRepo repo.url (repoPathOf cfg repo) repo.version
      = .ok pm)
    (hdry : cfg.isDryRun = false)
    (hfe : env.fileExists (migrationWorkflowFilePath (repoPathOf cfg repo) b
      cfg.newBranch) = false)
    (hcf : ∃ e, env.commitAndPushFile (repoPathOf cfg repo)
        (migrationWorkflowFilePath (repoPathOf cfg repo) b cfg.newBranch)
        (migrationWorkflowFileContent b cfg.newBranch)
        (mirrorCommitMessage b cfg.newBranch) = .error e) :
    (.createNewBranch repo.org repo.name b cfg.newBranch : RemoteCall)
      ∈ (processRepo env cfg repo dist tr).1.calls ∧
    ∃ dist2, (processRepo env cfg repo dist tr).2
      = .ok ({repo with version := cfg.newBranch}, dist2) := by
  rw [processRepo_main env cfg repo dist tr b pm hexc hq hb hp]
  dsimp only
  constructor
  · rw [hdry]
    split
    · rw [catchLabeled_calls]
      exact changeDefault_real_includes_create env b cfg.newBranch repo.org
        repo.name _
    · rw [logSubItem_calls, catchLabeled_calls]
      exact changeDefault_real_includes_create env b cfg.newBranch repo.org
        repo.name _
  · split
    · exact ⟨_, rfl⟩
    · exact ⟨_, rfl⟩

/-- Witness for C3 at a gateway whose commit-and-push rejects: the
create-branch call still happens. -/
theorem mirror_failure_does_not_block_change_step_witness :
    (.createNewBranch "ros2" "foo" "galactic" "rolling" : RemoteCall)
      ∈ (processRepo envMirrorFail cfgRolling repoFoo distFoo
          trEmpty).1.calls :=
  (mirror_failure_does_not_block_change_step envMirrorFail cfgRolling repoFoo
    distFoo trEmpty "galactic" "Pulled repository" (by decide) rfl
    (by decide) rfl rfl rfl ⟨"push rejected", rfl⟩).1

/-- C10: for a non-excluded repository whose default branch differs from
the target, the pull of the local working copy always happens — dry-run
or not — and a pull failure is not caught: it escapes as the
iteration's failure. -/
theorem pull_unconditional (env : Env) (cfg : Config) (repo : Repo)
    (dist : Distribution) (tr : Trace) (b : String)
    (hexc : (repo.org ++ "/" ++ repo.name) ∉ cfg.reposToExclude)
    (hq : env.getDefaultBranch repo.org repo.name = .ok b)
    (hb : b ≠ cfg.newBranch) :
    (.pullGitRepo repo.url (repoPathOf cfg repo) repo.version : RemoteCall)
      ∈ (processRepo env cfg repo dist tr).1.calls ∧
    (∀ e, env.pullGitRepo repo.url (repoPathOf cfg repo) repo.version
        = .error e →
      (processRepo env cfg repo dist tr).2 = .error e) := by
  constructor
  · cases hp : env.pullGitRepo repo.url (repoPathOf cfg repo)
        repo.version with
    | error e =>
      rw [processRepo_pull_error env cfg repo dist tr b e hexc hq hb hp]
      simp
    | ok pm =>
      rw [processRepo_main env cfg repo dist tr b pm hexc hq hb hp]
      dsimp only
      split
      · rw [catchLabeled_calls]
        apply calls_mono_change
        rw [catchLabeled_calls]
        apply calls_mono_mirror
        simp
      · rw [logSubItem_calls, catchLabeled_calls]
        apply calls_mono_change
        rw [catchLabeled_calls]
        apply calls_mono_mirror
        simp
  · intro e hpe
    rw [processRepo_pull_error env cfg repo dist tr b e hexc hq hb hpe]

/-- Witness for C10 with the dry-run flag set: the pull call is still
recorded. -/
theorem pull_unconditional_witness :
    (.pullGitRepo "..." (repoPathOf cfgDry repoFoo) "rolling" : RemoteCall)
      ∈ (processRepo envHappy cfgDry repoFoo distFoo trEmpty).1.calls :=
  (pull_unconditional envHappy cfgDry repoFoo distFoo trEmpty "galactic"
    (by decide) rfl (by decide)).1

theorem append_ne_empty_of_right (a b : String) (h : b ≠ "") :
    a ++ b ≠ "" := by
  intro hc
  have hl := congrArg String.length hc
  simp [String.length_append] at hl
  exact h (string_length_zero b hl.2)

/-- C2: in dry-run, an iteration records no mutation call (no
create-branch, set-default-branch, retarget-prs or commit-and-push),
and every line it logs is non-empty. -/
theorem dry_run_invariant (env : Env) (cfg : Config) (repo : Repo)
    (dist : Distribution) (tr : Trace)
    (hdry : cfg.isDryRun = true) :
    (∀ c ∈ (processRepo env cfg repo dist tr).1.calls,
      c ∈ tr.calls ∨ c.isMutation = false) ∧
    (∀ m ∈ (processRepo env cfg repo dist tr).1.logs,
      m ∈ tr.logs ∨ m ≠ "") := by
  by_cases hexc : (repo.org ++ "/" ++ repo.name) ∈ cfg.reposToExclude
  · rw [processRepo_excluded env cfg repo dist tr hexc]
    constructor
    · intro c hc
      exact Or.inl (by simpa using hc)
    · intro m hm
      simp at hm
      rcases hm with hm | hm
      · exact Or.inl hm
      · subst hm
        exact Or.inr (append_ne_empty_of_right _ _ (by decide))
  · cases hq : env.getDefaultBranch repo.org repo.name with
    | error f =>
      rw [processRepo_query_error env cfg repo dist tr f hexc hq]
      constructor
      · intro c hc
        simp at hc
        rcases hc with hc | hc
        · exact Or.inl hc
        · subst hc
          exact Or.inr rfl
      · intro m hm
        exact Or.inl (by simpa using hm)
    | ok b =>
      by_cases hb : b = cfg.newBranch
      · rw [processRepo_noop env cfg repo dist tr b hexc hq hb]
        constructor
        · intro c hc
          simp at hc
          rcases hc with hc | hc
          · exact Or.inl hc
          · subst hc
            exact Or.inr rfl
        · intro m hm
          simp at hm
          rcases hm with hm | hm
          · exact Or.inl hm
          · subst hm
            exact Or.inr (append_ne_empty_of_left _ _ (by decide))
      · cases hp : env.pullGitRepo repo.url (repoPathOf cfg repo)
            repo.version with
        | error f =>
          rw [processRepo_pull_error env cfg repo dist tr b f hexc hq hb hp]
          constructor
          · intro c hc
            simp at hc
            rcases hc with hc | hc | hc
            · exact Or.inl hc
            · subst hc
              exact Or.inr rfl
            · subst hc
              exact Or.inr rfl
          · intro m hm
            simp at hm
            rcases hm with hm | hm
            · exact Or.inl hm
            · subst hm
              exact Or.inr (append_ne_empty_of_left _ _
                (append_ne_empty_of_right _ _ (by decide)))
        | ok pm =>
          rw [processRepo_main env cfg repo dist tr b pm hexc hq hb hp]
          dsimp only
          rw [hdry]
          obtain ⟨mm, hmm⟩ := pushMirrorWorkflow_dry env b cfg.newBranch
            (repoPathOf cfg repo)
            (logSubItem (((tr.call
              (.getDefaultBranch repo.org repo.name)).log
              ("Processing " ++ repo.org ++ "/" ++ repo.name)).call
              (.pullGitRepo repo.url (repoPathOf cfg repo) repo.version)) pm)
          rw [hmm]
          simp only [catchLabeled_ok, changeDefaultBranchAndRetargetPrs_dry]
          split
          · constructor
            · intro c hc
              simp at hc
              rcases hc with hc | hc | hc
              · exact Or.inl hc
              · subst hc
                exact Or.inr rfl
              · subst hc
                exact Or.inr rfl
            · intro m hm
              simp at hm
              rcases hm with hm | hm | hm | hm | hm
              · exact Or.inl hm
              · subst hm
                exact Or.inr (append_ne_empty_of_left _ _
                  (append_ne_empty_of_right _ _ (by decide)))
              · subst hm
                exact Or.inr (append_ne_empty_of_left _ _ (by decide))
              · subst hm
                exact Or.inr (append_ne_empty_of_left _ _ (by decide))
              · subst hm
                exact Or.inr (append_ne_empty_of_left _ _ (by decide))
          · constructor
            · intro c hc
              simp at hc
              rcases hc with hc | hc | hc
              · exact Or.inl hc
              · subst hc
                exact Or.inr rfl
              · subst hc
                exact Or.inr rfl
            · intro m hm
              simp at hm
              rcases hm with hm | hm | hm | hm | hm | hm
              · exact Or.inl hm
              · subst hm
                exact Or.inr (append_ne_empty_of_left _ _
                  (append_ne_empty_of_right _ _ (by decide)))
              · subst hm
                exact Or.inr (append_ne_empty_of_left _ _ (by decide))
              · subst hm
                exact Or.inr (append_ne_empty_of_left _ _ (by decide))
              · subst hm
                exact Or.inr (append_ne_empty_of_left _ _ (by decide))
              · subst hm
                exact Or.inr (append_ne_empty_of_left _ _ (by decide))

/-- Witness for C2: in the concrete dry run the recorded pull call is a
non-mutation (and it is not a pre-existing call). -/
theorem dry_run_invariant_witness :
    (.pullGitRepo "..." (repoPathOf cfgDry repoFoo) "rolling" : RemoteCall)
        ∈ trEmpty.calls ∨
      (RemoteCall.pullGitRepo "..." (repoPathOf cfgDry repoFoo)
        "rolling").isMutation = false :=
  (dry_run_invariant envHappy cfgDry repoFoo distFoo trEmpty rfl).1
    (.pullGitRepo "..." (repoPathOf cfgDry repoFoo) "rolling") (by decide)

/-- C1 is false as stated: a rejection of the default-branch query — a
remote call made during a repository's reconciliation — is not caught
and not appended to the error collection; it escapes the loop, so the
batch aborts (no output manifests are written). -/
theorem uncaught_query_failure_aborts_batch :
    (makeRos2BranchesConsistent envQueryFail cfgRolling [repoFoo]
        distFoo).trace.errors = [] ∧
    (makeRos2BranchesConsistent envQueryFail cfgRolling [repoFoo]
        distFoo).outputRepos = none :=
  ⟨rfl, rfl⟩

/-- C1 (amended): failures of the two try/catch-wrapped steps (the
mirror-workflow step and the default-branch-change step) are caught,
converted into labeled error strings on the shared collection, and never
escape the loop; provided every repository's default-branch query and
clone/update succeed, the whole batch completes, and every accumulated
error carries some batch repository's label. -/
theorem wrapped_step_failures_are_caught (env : Env) (cfg : Config)
    (repos : List Repo) (dist : Distribution) (tr : Trace)
    (hq : ∀ r ∈ repos, exceptOk (env.getDefaultBranch r.org r.name) = true)
    (hp : ∀ r ∈ repos, ∀ p, exceptOk (env.pullGitRepo r.url p r.version)
      = true) :
    exceptOk (runLoop env cfg repos dist tr).2 = true ∧
    ∀ e ∈ (runLoop env cfg repos dist tr).1.errors,
      e ∈ tr.errors ∨ ∃ r ∈ repos, ∃ m, e = changeErrorMessage r.org r.name m
    :=
  ⟨runLoop_ok env cfg repos dist tr hq hp,
    runLoop_errors_sub env cfg repos dist tr⟩

/-- Witness for the amended C1: with a gateway whose commit-and-push
rejects but whose query and pull succeed, the batch still completes. -/
theorem wrapped_step_failures_are_caught_witness :
    exceptOk (runLoop envMirrorFail cfgRolling [repoFoo] distFoo
      trEmpty).2 = true :=
  (wrapped_step_failures_are_caught envMirrorFail cfgRolling [repoFoo]
    distFoo trEmpty
    (by
      intro r hr
      simp at hr
      subst hr
      rfl)
    (by
      intro r hr p
      simp at hr
      subst hr
      rfl)).1

/-- C8 (exit status modelled from the spec): when the batch completes —
output manifests present — the run exits non-zero exactly when the
accumulated error list is non-empty, and the distribution manifest is
written as well. -/
theorem exit_status_reflects_errors (env : Env) (cfg : Config)
    (repos : List Repo) (dist : Distribution)
    (h : (makeRos2BranchesConsistent env cfg repos dist).outputRepos.isSome
      = true) :
    ((makeRos2BranchesConsistent env cfg repos dist).exitNonZero = true ↔
      (makeRos2BranchesConsistent env cfg repos dist).trace.errors ≠ []) ∧
    (makeRos2BranchesConsistent env cfg repos
      dist).outputDistribution.isSome = true := by
  unfold makeRos2BranchesConsistent at h ⊢
  rcases hrl : runLoop env cfg repos dist ⟨[], [], []⟩ with ⟨tr, r⟩
  cases r with
  | error e =>
    rw [hrl] at h
    simp at h
  | ok pd =>
    rcases pd with ⟨repos2, dist2⟩
    dsimp only
    have herr : (if tr.errors.isEmpty then tr.log "Done! - No errors"
        else List.foldl logSubItem (tr.log "Finished with errors:")
          tr.errors).errors = tr.errors := by
      split
      · simp
      · rw [foldl_logSubItem_errors]
        simp
    rw [herr]
    refine ⟨?_, rfl⟩
    constructor
    · intro hx
      simp at hx
      exact hx
    · intro hx
      simp [hx]

/-- Witness for C8: the completed run with a failing commit-and-push has
a non-empty error list and exits non-zero. -/
theorem exit_status_reflects_errors_witness :
    (makeRos2BranchesConsistent envMirrorFail cfgRolling [repoFoo]
      distFoo).exitNonZero = true :=
  (exit_status_reflects_errors envMirrorFail cfgRolling [repoFoo]
    distFoo rfl).1.mpr (List.cons_ne_nil _ _)

/-- C9: every error string on the shared collection — also one recorded
for a mirror-workflow failure — is built from the single
`Error changing default branch and retargetting PRs on <org>/<name>:`
template for some repository of the batch, so the label never
distinguishes which of the two steps failed. -/
theorem error_labels_use_change_template (env : Env) (cfg : Config)
    (repos : List Repo) (dist : Distribution) :
    ∀ e ∈ (makeRos2BranchesConsistent env cfg repos dist).trace.errors,
      (∃ r ∈ repos, ∃ m, e = changeErrorMessage r.org r.name m) ∧
      ∃ rest,
        e = "Error changing default branch and retargetting PRs on " ++ rest
    := by
  intro e he
  have hloop : e ∈ (runLoop env cfg repos dist ⟨[], [], []⟩).1.errors := by
    unfold makeRos2BranchesConsistent at he
    rcases hrl : runLoop env cfg repos dist ⟨[], [], []⟩ with ⟨tr, r⟩
    rw [hrl] at he
    cases r with
    | error f => simpa using he
    | ok pd =>
      rcases pd with ⟨repos2, dist2⟩
      dsimp only at he
      have herr : (if tr.errors.isEmpty then tr.log "Done! - No errors"
          else List.foldl logSubItem (tr.log "Finished with errors:")
            tr.errors).errors = tr.errors := by
        split
        · simp
        · rw [foldl_logSubItem_errors]
          simp
      rw [herr] at he
      simpa using he
  rcases runLoop_errors_sub env cfg repos dist ⟨[], [], []⟩ e hloop with h | h
  · simp at h
  · refine ⟨h, ?_⟩
    rcases h with ⟨r, hr, m, hm⟩
    refine ⟨r.org ++ ("/" ++ (r.name ++ (": " ++ m))), ?_⟩
    rw [hm]
    simp [changeErrorMessage, String.append_assoc]

/-- Witness for C9: the concrete error recorded for the failing
commit-and-push carries the default-branch-change label. -/
theorem error_labels_use_change_template_witness :
    ∃ rest,
      changeErrorMessage "ros2" "foo" "push rejected"
        = "Error changing default branch and retargetting PRs on " ++ rest :=
  (error_labels_use_change_template envMirrorFail cfgRolling [repoFoo]
    distFoo (changeErrorMessage "ros2" "foo" "push rejected")
    (by decide)).2
